import Mathlib

/-!
Verification of the motion-gated color controller in `emg_iot`.

The two scripts `hueLights/hueColorIMU.py` and `examples/hueLights/hueBright.py`
are shallowly embedded below.  Python floats are modelled as rationals, Python
ints as `Int`, timestamps as rationals, and the Hue bridge as an explicit state
record.  Every bridge call may raise; a failure oracle (a list of Booleans, one
consumed per bridge call, `true` = the call raises) makes the exception
behaviour explicit.  Exceptions are values of `PyResult`; the `try/except`
wrappers in the source become total functions that map the `raised` outcome to
the source's failure result.
-/

namespace EmgIot

/-- Python `int(x)` applied to a real number: truncation toward zero. -/
def pyInt (q : ℚ) : Int := if 0 ≤ q then ⌊q⌋ else ⌈q⌉

/-! Configuration constants of `hueColorIMU.py` (control mode). -/

def TRAINING_MODE : Bool := false

def UPDATE_INTERVAL : ℚ := 3 / 10

def MOTION_THRESHOLD : ℚ := 150

def HUE_STEP : ℚ := 500

def DEADZONE : ℚ := 50

/-- The group / individual-lights configuration: `USE_GROUP`, `GROUP_NAME`,
`LIGHT_NAMES`.  The scripts ship both branches behind the `USE_GROUP` flag, so
the flag and the names are kept as a parameter of the embedding. -/
structure LightConfig where
  use_group : Bool
  group_name : String
  light_names : List String
deriving DecidableEq

/-- The configuration as committed in both files: `USE_GROUP = True`,
`GROUP_NAME = 'Living room'` (`LIGHT_NAMES` is commented out). -/
def cfgGroup : LightConfig := ⟨true, "Living room", []⟩

/-! The Hue bridge, as far as the scripts observe it. -/

/-- One entry of `bridge.get_group()`: its name, its `action` dictionary's
optional `hue` entry (read with `.get('hue', 0)`), and `state.any_on`. -/
structure GroupInfo where
  name : String
  action_hue : Option Int
  any_on : Bool
deriving DecidableEq

/-- One entry of `bridge.get_light_objects('name')`.  The Python attribute
`on` is called `isOn` here because `on` is a reserved token in Lean. -/
structure Light where
  name : String
  hue : Int
  isOn : Bool
deriving DecidableEq

structure BridgeState where
  groups : List (Nat × GroupInfo)
  lights : List Light
deriving DecidableEq

/-- The bridge calls the scripts can issue (reads and writes). -/
inductive Call where
  | getGroups
  | getLights
  | readLightHue (name : String)
  | readLightOn (name : String)
  | setGroupHue (gid : Nat) (v : Int)
  | setLightHue (name : String) (v : Int)
  | setGroupOn (gid : Nat) (v : Bool)
  | setLightOn (name : String) (v : Bool)
deriving DecidableEq

/-- Calls that mutate bridge state (the `set_*` / attribute-assignment calls). -/
def Call.isMut : Call → Bool
  | .setGroupHue _ _ => true
  | .setLightHue _ _ => true
  | .setGroupOn _ _ => true
  | .setLightOn _ _ => true
  | _ => false

/-- Outcome of a Python `try` block: a normal value, or an uncaught raise. -/
inductive PyResult (α : Type) where
  | ok (a : α)
  | raised
deriving DecidableEq

/-- Result of a `try` block together with the bridge state at exit (mutations
performed before a raise persist) and the trace of calls attempted. -/
structure TryRes (α : Type) where
  out : PyResult α
  bridge : BridgeState
  calls : List Call
deriving DecidableEq

/-- `next((gid for gid, g in groups.items() if g['name'] == name), None)`. -/
def findGroupId (gs : List (Nat × GroupInfo)) (gname : String) :
    Option (Nat × GroupInfo) :=
  gs.find? (fun p => p.2.name = gname)

/-- `name in lights` / `lights[name]` on `get_light_objects('name')`. -/
def findLight (ls : List Light) (n : String) : Option Light :=
  ls.find? (fun L => L.name = n)

/-- `bridge.set_group(gid, 'hue', v)` -- effect on the stored group list. -/
def setGroupHueAt (gs : List (Nat × GroupInfo)) (gid : Nat) (v : Int) :
    List (Nat × GroupInfo) :=
  gs.map (fun p => if p.1 = gid then (p.1, { p.2 with action_hue := some v }) else p)

/-- `bridge.set_group(gid, 'on', v)` -- effect on the stored group list. -/
def setGroupOnAt (gs : List (Nat × GroupInfo)) (gid : Nat) (v : Bool) :
    List (Nat × GroupInfo) :=
  gs.map (fun p => if p.1 = gid then (p.1, { p.2 with any_on := v }) else p)

/-- Result of the per-light assignment loop: outcome, the light list at exit,
and the trace of attempted assignments. -/
structure LoopRes where
  out : PyResult Unit
  lights : List Light
  calls : List Call
deriving DecidableEq

/-- The `for name in available_lights: lights[name].<attr> = v` loop.  Each
attribute assignment is one bridge call and may raise; a raise aborts the loop
but keeps the assignments already performed. -/
def setLightsLoop (upd : Light → Light) (mk : String → Call) :
    List Light → List Bool → List String → LoopRes
  | ls, _, [] => ⟨.ok (), ls, []⟩
  | ls, o, n :: rest =>
    if o.headD false then ⟨.raised, ls, [mk n]⟩
    else
      let r := setLightsLoop upd mk
        (ls.map (fun L => if L.name = n then upd L else L)) o.tail rest
      ⟨r.out, r.lights, mk n :: r.calls⟩

/-! `adjust_hue` from `hueColorIMU.py`, split into the two `USE_GROUP`
branches of its `try` block plus the `try/except` wrapper. -/

/-- Lines 93-95 / 112-114 of `hueColorIMU.py`:
`new_hue = (current_hue + hue_change) % 65536` followed by the defensive
`new_hue = max(0, min(65535, new_hue))`.  Python `%` with the positive modulus
65536 is `Int.emod`. -/
def new_hue_of (current_hue hue_change : Int) : Int :=
  max 0 (min 65535 (Int.emod (current_hue + hue_change) 65536))

/-- The `if USE_GROUP:` branch of `adjust_hue`'s `try` block. -/
def adjust_hue_group (cfg : LightConfig) (bs : BridgeState) (o : List Bool)
    (hue_change : Int) : TryRes Bool :=
  if o.headD false then ⟨.raised, bs, [.getGroups]⟩
  else
    match findGroupId bs.groups cfg.group_name with
    | some (gid, g) =>
      let current_hue := g.action_hue.getD 0
      let new_hue := new_hue_of current_hue hue_change
      if o.tail.headD false then ⟨.raised, bs, [.getGroups, .setGroupHue gid new_hue]⟩
      else
        ⟨.ok true, { bs with groups := setGroupHueAt bs.groups gid new_hue },
          [.getGroups, .setGroupHue gid new_hue]⟩
    | none => ⟨.ok false, bs, [.getGroups]⟩

/-- The `else:` (individual lights) branch of `adjust_hue`'s `try` block.  The
current hue is read from the first available light only; the computed value is
then written to every available light in configuration order. -/
def adjust_hue_lights (cfg : LightConfig) (bs : BridgeState) (o : List Bool)
    (hue_change : Int) : TryRes Bool :=
  if o.headD false then ⟨.raised, bs, [.getLights]⟩
  else
    match cfg.light_names.filter (fun n => (findLight bs.lights n).isSome) with
    | [] => ⟨.ok false, bs, [.getLights]⟩
    | a0 :: rest =>
      if o.tail.headD false then ⟨.raised, bs, [.getLights, .readLightHue a0]⟩
      else
        let current_hue := ((findLight bs.lights a0).map Light.hue).getD 0
        let new_hue := new_hue_of current_hue hue_change
        let r := setLightsLoop (fun L => { L with hue := new_hue })
          (fun n => .setLightHue n new_hue) bs.lights o.tail.tail (a0 :: rest)
        ⟨(match r.out with | .ok _ => .ok true | .raised => .raised),
          { bs with lights := r.lights },
          .getLights :: .readLightHue a0 :: r.calls⟩

/-- The `try` block of `adjust_hue`. -/
def adjust_hue_try (cfg : LightConfig) (bs : BridgeState) (o : List Bool)
    (hue_change : Int) : TryRes Bool :=
  if cfg.use_group then adjust_hue_group cfg bs o hue_change
  else adjust_hue_lights cfg bs o hue_change

/-- `adjust_hue(bridge, hue_change)`: `if not bridge: return False`, then the
`try` block, with `except` returning `False`.  Result: the returned Boolean,
the bridge state after the call, and the trace of bridge calls attempted. -/
def adjust_hue (cfg : LightConfig) (bridge : Option BridgeState) (o : List Bool)
    (hue_change : Int) : Bool × Option BridgeState × List Call :=
  match bridge with
  | none => (false, none, [])
  | some bs =>
    let r := adjust_hue_try cfg bs o hue_change
    match r.out with
    | .ok b => (b, some r.bridge, r.calls)
    | .raised => (false, some r.bridge, r.calls)

/-! `toggle_lights` from `hueBright.py`, with the same structure. -/

/-- The `if USE_GROUP:` branch of `toggle_lights`'s `try` block. -/
def toggle_lights_group (cfg : LightConfig) (bs : BridgeState) (o : List Bool) :
    TryRes Unit :=
  if o.headD false then ⟨.raised, bs, [.getGroups]⟩
  else
    match findGroupId bs.groups cfg.group_name with
    | some (gid, g) =>
      let current_state := g.any_on
      if o.tail.headD false then ⟨.raised, bs, [.getGroups, .setGroupOn gid (!current_state)]⟩
      else
        ⟨.ok (), { bs with groups := setGroupOnAt bs.groups gid (!current_state) },
          [.getGroups, .setGroupOn gid (!current_state)]⟩
    | none => ⟨.ok (), bs, [.getGroups]⟩

/-- The `else:` (individual lights) branch of `toggle_lights`'s `try` block. -/
def toggle_lights_lights (cfg : LightConfig) (bs : BridgeState) (o : List Bool) :
    TryRes Unit :=
  if o.headD false then ⟨.raised, bs, [.getLights]⟩
  else
    match cfg.light_names.filter (fun n => (findLight bs.lights n).isSome) with
    | [] => ⟨.ok (), bs, [.getLights]⟩
    | a0 :: rest =>
      if o.tail.headD false then ⟨.raised, bs, [.getLights, .readLightOn a0]⟩
      else
        let current_state := ((findLight bs.lights a0).map Light.isOn).getD false
        let r := setLightsLoop (fun L => { L with isOn := !current_state })
          (fun n => .setLightOn n (!current_state)) bs.lights o.tail.tail (a0 :: rest)
        ⟨(match r.out with | .ok _ => .ok () | .raised => .raised),
          { bs with lights := r.lights },
          .getLights :: .readLightOn a0 :: r.calls⟩

/-- The `try` block of `toggle_lights`. -/
def toggle_lights_try (cfg : LightConfig) (bs : BridgeState) (o : List Bool) :
    TryRes Unit :=
  if cfg.use_group then toggle_lights_group cfg bs o
  else toggle_lights_lights cfg bs o

/-- `toggle_lights(bridge)`: `if not bridge: return`, then the `try` block,
with `except` returning normally. -/
def toggle_lights (cfg : LightConfig) (bridge : Option BridgeState) (o : List Bool) :
    Option BridgeState × List Call :=
  match bridge with
  | none => (none, [])
  | some bs =>
    let r := toggle_lights_try cfg bs o
    (some r.bridge, r.calls)

/-! The controller state and event handlers of `hueColorIMU.py`. -/

/-- The module-level mutable state of `hueColorIMU.py`:
`current_gesture`, `imu_y_value`, `last_hue_update`, `gesture_start_y`. -/
structure ControllerState where
  current_gesture : Nat
  imu_y_value : ℚ
  last_hue_update : ℚ
  gesture_start_y : ℚ
deriving DecidableEq

/-- `handle_gesture(pose, bridge)` of `hueColorIMU.py` (the bridge argument is
unused there): on a pose change, record the pose, and on a change into pose 1
capture the anchor `gesture_start_y = imu_y_value`. -/
def handle_gesture (s : ControllerState) (pose : Nat) : ControllerState :=
  if pose ≠ s.current_gesture then
    if pose = 1 then
      { s with current_gesture := pose, gesture_start_y := s.imu_y_value }
    else
      { s with current_gesture := pose }
  else s

/-- `hue_change = int((relative_y / MOTION_THRESHOLD) * HUE_STEP)` (line 168). -/
def hue_change_of (relative_y : ℚ) : Int :=
  pyInt (relative_y / MOTION_THRESHOLD * HUE_STEP)

/-- Result of one `handle_imu` invocation: the controller state, the bridge
state, the trace of bridge calls, and whether a hue change was applied
(`adjust_hue` returned `True` and the rate-limiter timestamp was updated). -/
structure ImuRes where
  st : ControllerState
  bridge : Option BridgeState
  calls : List Call
  applied : Bool
deriving DecidableEq

/-- `handle_imu(quat, acc, gyro, bridge)` of `hueColorIMU.py`.  Only `acc[1]`
is read; `current_time` stands for `time.time()` at this invocation.
`imu_y_value` is always set to `acc1` first; `relative_y` (the source's local
`relative_y = imu_y_value - gesture_start_y`) appears inlined as
`acc1 - s.gesture_start_y`. -/
def handle_imu (cfg : LightConfig) (s : ControllerState) (bridge : Option BridgeState)
    (o : List Bool) (acc1 : ℚ) (current_time : ℚ) : ImuRes :=
  if s.current_gesture ≠ 1 ∨ TRAINING_MODE = true then
    ⟨{ s with imu_y_value := acc1 }, bridge, [], false⟩
  else if current_time - s.last_hue_update < UPDATE_INTERVAL then
    ⟨{ s with imu_y_value := acc1 }, bridge, [], false⟩
  else if |acc1 - s.gesture_start_y| < DEADZONE then
    ⟨{ s with imu_y_value := acc1 }, bridge, [], false⟩
  else if |acc1 - s.gesture_start_y| > MOTION_THRESHOLD then
    if (adjust_hue cfg bridge o (hue_change_of (acc1 - s.gesture_start_y))).1 then
      ⟨{ s with imu_y_value := acc1, last_hue_update := current_time },
        (adjust_hue cfg bridge o (hue_change_of (acc1 - s.gesture_start_y))).2.1,
        (adjust_hue cfg bridge o (hue_change_of (acc1 - s.gesture_start_y))).2.2, true⟩
    else
      ⟨{ s with imu_y_value := acc1 },
        (adjust_hue cfg bridge o (hue_change_of (acc1 - s.gesture_start_y))).2.1,
        (adjust_hue cfg bridge o (hue_change_of (acc1 - s.gesture_start_y))).2.2, false⟩
  else ⟨{ s with imu_y_value := acc1 }, bridge, [], false⟩

/-! Event sequences. -/

/-- An armband event: a raw pose classification or an IMU sample (with the
wall-clock time at which it is handled). -/
inductive Ev where
  | pose (p : Nat)
  | imu (acc1 : ℚ) (t : ℚ)

/-- Dispatch one event to the handlers of `hueColorIMU.py` (no bridge-call
failures injected). -/
def stepEv (cfg : LightConfig) (x : ControllerState × Option BridgeState) (e : Ev) :
    ControllerState × Option BridgeState :=
  match e with
  | .pose p => (handle_gesture x.1 p, x.2)
  | .imu a t =>
    ((handle_imu cfg x.1 x.2 [] a t).st, (handle_imu cfg x.1 x.2 [] a t).bridge)

/-- Run a sequence of events through the `hueColorIMU.py` handlers. -/
def runEvents (cfg : LightConfig) (x : ControllerState × Option BridgeState)
    (es : List Ev) : ControllerState × Option BridgeState :=
  es.foldl (stepEv cfg) x

/-! `handle_gesture` of `hueBright.py` (the toggle variant) and pose-sequence
runs through it. -/

/-- `handle_gesture(pose, bridge)` of `hueBright.py`:
`if pose == 1 and not TRAINING_MODE: toggle_lights(bridge)`.  There is no
stored previous pose, so no edge detection. -/
def hueBright_handle_gesture (training_mode : Bool) (cfg : LightConfig)
    (bridge : Option BridgeState) (o : List Bool) (pose : Nat) :
    Option BridgeState × List Call :=
  if pose = 1 ∧ training_mode = false then toggle_lights cfg bridge o
  else (bridge, [])

/-- Run a sequence of raw pose events through `hueBright.py`'s
`handle_gesture` (no bridge-call failures injected), accumulating the trace. -/
def runPoses (training_mode : Bool) (cfg : LightConfig) :
    Option BridgeState → List Nat → Option BridgeState × List Call
  | b, [] => (b, [])
  | b, p :: ps =>
    let r := hueBright_handle_gesture training_mode cfg b [] p
    let rest := runPoses training_mode cfg r.1 ps
    (rest.1, r.2 ++ rest.2)

/-! Concrete fixtures used by witnesses and counterexamples. -/

/-- A bridge with the configured group present (hue 1000, currently off). -/
def bsG : BridgeState := ⟨[(1, ⟨"Living room", some 1000, false⟩)], []⟩

/-- An individual-lights configuration with two light names. -/
def cfgLights : LightConfig := ⟨false, "Living room", ["A", "B"]⟩

/-- A bridge with no groups and two individual lights in distinct states. -/
def bsL : BridgeState := ⟨[], [⟨"A", 100, false⟩, ⟨"B", 200, true⟩]⟩

/-! Behavioural lemmas about `handle_imu`, shared by the claim theorems. -/

/-- If the gesture is not active, `handle_imu` only records the IMU sample. -/
theorem handle_imu_inactive (cfg : LightConfig) (s : ControllerState)
    (bro : Option BridgeState) (o : List Bool) (a t : ℚ)
    (h : s.current_gesture ≠ 1) :
    handle_imu cfg s bro o a t = ⟨{ s with imu_y_value := a }, bro, [], false⟩ := by
  simp [handle_imu, h, TRAINING_MODE]

/-- Within `UPDATE_INTERVAL` of the last applied update, `handle_imu` only
records the IMU sample. -/
theorem handle_imu_rate_limited (cfg : LightConfig) (s : ControllerState)
    (bro : Option BridgeState) (o : List Bool) (a t : ℚ)
    (h1 : s.current_gesture = 1)
    (h2 : t - s.last_hue_update < UPDATE_INTERVAL) :
    handle_imu cfg s bro o a t = ⟨{ s with imu_y_value := a }, bro, [], false⟩ := by
  simp [handle_imu, h1, TRAINING_MODE, h2]

/-- `handle_imu` never touches `current_gesture` or `gesture_start_y`, always
stores the sample, and updates the timestamp exactly on applied updates. -/
theorem handle_imu_frame (cfg : LightConfig) (s : ControllerState)
    (bro : Option BridgeState) (o : List Bool) (a t : ℚ) :
    (handle_imu cfg s bro o a t).st.current_gesture = s.current_gesture ∧
    (handle_imu cfg s bro o a t).st.gesture_start_y = s.gesture_start_y ∧
    (handle_imu cfg s bro o a t).st.imu_y_value = a ∧
    ((handle_imu cfg s bro o a t).applied = false →
      (handle_imu cfg s bro o a t).st.last_hue_update = s.last_hue_update) ∧
    ((handle_imu cfg s bro o a t).applied = true →
      (handle_imu cfg s bro o a t).st.last_hue_update = t) := by
  unfold handle_imu
  split_ifs
  all_goals simp

/-- An applied update implies the gesture was active and the rate-limit gate
passed, and fixes the resulting controller state. -/
theorem handle_imu_applied_spec (cfg : LightConfig) (s : ControllerState)
    (bro : Option BridgeState) (o : List Bool) (a t : ℚ)
    (h : (handle_imu cfg s bro o a t).applied = true) :
    s.current_gesture = 1 ∧ ¬(t - s.last_hue_update < UPDATE_INTERVAL) ∧
    (handle_imu cfg s bro o a t).st =
      { s with imu_y_value := a, last_hue_update := t } := by
  unfold handle_imu at h ⊢
  split_ifs at h ⊢
  all_goals simp_all [TRAINING_MODE]

/-- On a qualifying sample (gesture active, rate limit passed, relative motion
beyond `MOTION_THRESHOLD`), `handle_imu` reduces to the `adjust_hue` call. -/
theorem handle_imu_qualifying (cfg : LightConfig) (s : ControllerState)
    (bro : Option BridgeState) (o : List Bool) (a t : ℚ)
    (h1 : s.current_gesture = 1)
    (h2 : ¬(t - s.last_hue_update < UPDATE_INTERVAL))
    (h3 : |a - s.gesture_start_y| > MOTION_THRESHOLD) :
    handle_imu cfg s bro o a t =
      (if (adjust_hue cfg bro o (hue_change_of (a - s.gesture_start_y))).1 then
        ⟨{ s with imu_y_value := a, last_hue_update := t },
          (adjust_hue cfg bro o (hue_change_of (a - s.gesture_start_y))).2.1,
          (adjust_hue cfg bro o (hue_change_of (a - s.gesture_start_y))).2.2, true⟩
      else
        ⟨{ s with imu_y_value := a },
          (adjust_hue cfg bro o (hue_change_of (a - s.gesture_start_y))).2.1,
          (adjust_hue cfg bro o (hue_change_of (a - s.gesture_start_y))).2.2, false⟩) := by
  have hd : ¬(|a - s.gesture_start_y| < DEADZONE) := by
    rw [DEADZONE]
    rw [MOTION_THRESHOLD] at h3
    push_neg
    linarith
  simp only [handle_imu, h1, TRAINING_MODE, h2, hd, h3]
  simp


/-- Group mode, target found, no failures: `adjust_hue` reads the group's
current hue, writes the wrapped new hue, and returns `True`. -/
theorem adjust_hue_group_found (cfg : LightConfig) (bs : BridgeState) (d : Int)
    (gid : Nat) (g : GroupInfo)
    (hu : cfg.use_group = true)
    (hg : findGroupId bs.groups cfg.group_name = some (gid, g)) :
    adjust_hue cfg (some bs) [] d =
      (true,
       some { bs with groups := setGroupHueAt bs.groups gid (new_hue_of (g.action_hue.getD 0) d) },
       [.getGroups, .setGroupHue gid (new_hue_of (g.action_hue.getD 0) d)]) := by
  simp [adjust_hue, adjust_hue_try, adjust_hue_group, hu, hg]

/-- Group mode, target name absent: `adjust_hue` returns `False`, touches
nothing and performs no mutating call (whether or not `get_group` raises). -/
theorem adjust_hue_group_notfound (cfg : LightConfig) (bs : BridgeState)
    (o : List Bool) (d : Int)
    (hu : cfg.use_group = true)
    (hg : findGroupId bs.groups cfg.group_name = none) :
    adjust_hue cfg (some bs) o d = (false, some bs, [.getGroups]) := by
  cases o with
  | nil => simp [adjust_hue, adjust_hue_try, adjust_hue_group, hu, hg]
  | cons b o =>
    cases b <;> simp [adjust_hue, adjust_hue_try, adjust_hue_group, hu, hg]

/-- Group mode, target found, no failures: `toggle_lights` writes the negated
`any_on` state. -/
theorem toggle_lights_group_found (cfg : LightConfig) (bs : BridgeState)
    (gid : Nat) (g : GroupInfo)
    (hu : cfg.use_group = true)
    (hg : findGroupId bs.groups cfg.group_name = some (gid, g)) :
    toggle_lights cfg (some bs) [] =
      (some { bs with groups := setGroupOnAt bs.groups gid (!g.any_on) },
       [.getGroups, .setGroupOn gid (!g.any_on)]) := by
  simp [toggle_lights, toggle_lights_try, toggle_lights_group, hu, hg]

/-- Claim C5 (confirmed): for every integer current hue and every integer
delta, the applied hue equals `(current_hue + hue_change) mod 65536` and lies
in `[0, 65535]`, so the subsequent clamp `max(0, min(65535, .))` is the
identity; in particular `current_hue = 65300`, `delta = 500` yields 264. -/
theorem c5_hue_wraparound (current_hue hue_change : Int) :
    new_hue_of current_hue hue_change = Int.emod (current_hue + hue_change) 65536 ∧
    0 ≤ new_hue_of current_hue hue_change ∧
    new_hue_of current_hue hue_change ≤ 65535 ∧
    new_hue_of 65300 500 = 264 := by
  have h1 : 0 ≤ Int.emod (current_hue + hue_change) 65536 :=
    Int.emod_nonneg _ (by norm_num)
  have h2 : Int.emod (current_hue + hue_change) 65536 < 65536 :=
    Int.emod_lt_of_pos _ (by norm_num)
  refine ⟨?_, ?_, ?_, by decide⟩ <;> simp only [new_hue_of] <;> omega

/-- Claim C4 (confirmed): two-tier gate.  A motion sample whose relative
displacement satisfies `|relative| <= DEADZONE` issues no lighting call, one
with `DEADZONE < |relative| <= MOTION_THRESHOLD` issues no lighting call
either, and only `|relative| > MOTION_THRESHOLD` can produce a bridge call. -/
theorem c4_two_tier_gate (cfg : LightConfig) (s : ControllerState)
    (bro : Option BridgeState) (o : List Bool) (a t : ℚ) :
    (|a - s.gesture_start_y| ≤ DEADZONE →
      (handle_imu cfg s bro o a t).calls = [] ∧
      (handle_imu cfg s bro o a t).applied = false) ∧
    (DEADZONE < |a - s.gesture_start_y| ∧ |a - s.gesture_start_y| ≤ MOTION_THRESHOLD →
      (handle_imu cfg s bro o a t).calls = [] ∧
      (handle_imu cfg s bro o a t).applied = false) ∧
    ((handle_imu cfg s bro o a t).calls ≠ [] →
      |a - s.gesture_start_y| > MOTION_THRESHOLD) := by
  have key : ¬(|a - s.gesture_start_y| > MOTION_THRESHOLD) →
      (handle_imu cfg s bro o a t).calls = [] ∧
      (handle_imu cfg s bro o a t).applied = false := by
    intro h
    unfold handle_imu
    split_ifs <;> simp_all
  refine ⟨fun h => key ?_, fun h => key ?_, fun hc => ?_⟩
  · rw [DEADZONE] at h
    rw [MOTION_THRESHOLD]
    push_neg
    linarith
  · rw [MOTION_THRESHOLD] at h ⊢
    push_neg
    linarith [h.2]
  · by_contra hn
    exact hc (key hn).1

/-- Claim C10 (confirmed): every `handle_imu` invocation that does not apply
a hue update (gesture inactive, rate-limited, within deadzone, at or below the
motion threshold, or failed bridge call) leaves `current_gesture`,
`gesture_start_y` and `last_hue_update` unchanged and only refreshes
`imu_y_value` with the incoming sample. -/
theorem c10_no_call_frame (cfg : LightConfig) (s : ControllerState)
    (bro : Option BridgeState) (o : List Bool) (a t : ℚ)
    (h : (handle_imu cfg s bro o a t).applied = false) :
    (handle_imu cfg s bro o a t).st.current_gesture = s.current_gesture ∧
    (handle_imu cfg s bro o a t).st.gesture_start_y = s.gesture_start_y ∧
    (handle_imu cfg s bro o a t).st.last_hue_update = s.last_hue_update ∧
    (handle_imu cfg s bro o a t).st.imu_y_value = a := by
  obtain ⟨h1, h2, h3, h4, h5⟩ := handle_imu_frame cfg s bro o a t
  exact ⟨h1, h2, h4 h, h3⟩

/-- Claim C3 (confirmed): rate limiting.  An applied hue change comes at
least `UPDATE_INTERVAL` after the previous applied change and stamps the
rate limiter with its own time, and any sample arriving less than
`UPDATE_INTERVAL` after an applied change produces no bridge call at all. -/
theorem c3_rate_limiting (cfg : LightConfig) (s : ControllerState)
    (bro : Option BridgeState) (o : List Bool) (a t : ℚ) :
    ((handle_imu cfg s bro o a t).applied = true →
      UPDATE_INTERVAL ≤ t - s.last_hue_update ∧
      (handle_imu cfg s bro o a t).st.last_hue_update = t) ∧
    (∀ (o2 : List Bool) (a2 t2 : ℚ),
      (handle_imu cfg s bro o a t).applied = true →
      t2 - t < UPDATE_INTERVAL →
      (handle_imu cfg (handle_imu cfg s bro o a t).st
        (handle_imu cfg s bro o a t).bridge o2 a2 t2).applied = false ∧
      (handle_imu cfg (handle_imu cfg s bro o a t).st
        (handle_imu cfg s bro o a t).bridge o2 a2 t2).calls = []) := by
  constructor
  · intro h
    obtain ⟨h1, h2, h3⟩ := handle_imu_applied_spec cfg s bro o a t h
    exact ⟨le_of_not_lt h2, by simp [h3]⟩
  · intro o2 a2 t2 h hlt
    obtain ⟨h1, h2, h3⟩ := handle_imu_applied_spec cfg s bro o a t h
    have hg : (handle_imu cfg s bro o a t).st.current_gesture = 1 := by simp [h3, h1]
    have hl : (handle_imu cfg s bro o a t).st.last_hue_update = t := by simp [h3]
    rw [handle_imu_rate_limited cfg _ _ o2 a2 t2 hg (by rw [hl]; exact hlt)]
    exact ⟨rfl, rfl⟩


theorem handle_gesture_cg (s : ControllerState) (p : Nat) :
    (handle_gesture s p).current_gesture = p := by
  unfold handle_gesture
  split_ifs <;> simp_all

theorem handle_gesture_anchor_ne (s : ControllerState) (p : Nat) (h : p ≠ 1) :
    (handle_gesture s p).gesture_start_y = s.gesture_start_y := by
  unfold handle_gesture
  split_ifs <;> simp_all

theorem handle_gesture_anchor_capture (s : ControllerState)
    (h : s.current_gesture ≠ 1) :
    (handle_gesture s 1).gesture_start_y = s.imu_y_value := by
  unfold handle_gesture
  split_ifs <;> simp_all

theorem runEvents_append (cfg : LightConfig) (x : ControllerState × Option BridgeState)
    (l1 l2 : List Ev) :
    runEvents cfg x (l1 ++ l2) = runEvents cfg (runEvents cfg x l1) l2 :=
  List.foldl_append _ _ _ _

/-- Claim C6 (confirmed): anchor capture and reset.  On every transition of
the pose into the active label the anchor is set to the most recently received
motion sample (which every `handle_imu` invocation refreshes regardless of
gesture state), and after a rest-active-rest-active sequence the second anchor
equals the motion sample at the second activation, independent of the starting
state. -/
theorem c6_anchor_capture :
    (∀ s : ControllerState, s.current_gesture ≠ 1 →
      (handle_gesture s 1).gesture_start_y = s.imu_y_value ∧
      (handle_gesture s 1).current_gesture = 1) ∧
    (∀ (cfg : LightConfig) (s : ControllerState) (bro : Option BridgeState)
        (o : List Bool) (a t : ℚ),
      (handle_imu cfg s bro o a t).st.imu_y_value = a) ∧
    (∀ (cfg : LightConfig) (s0 : ControllerState) (bro : Option BridgeState)
        (y1 t1 y2 t2 : ℚ),
      (runEvents cfg (s0, bro)
        [.pose 0, .imu y1 t1, .pose 1, .pose 0, .imu y2 t2, .pose 1]).1.gesture_start_y
        = y2) := by
  refine ⟨fun s h => ⟨handle_gesture_anchor_capture s h, handle_gesture_cg s 1⟩,
    fun cfg s bro o a t => (handle_imu_frame cfg s bro o a t).2.2.1, ?_⟩
  intro cfg s0 bro y1 t1 y2 t2
  have key : ∀ (x : ControllerState × Option BridgeState), x.1.current_gesture = 0 →
      (runEvents cfg x [.imu y2 t2, .pose 1]).1.gesture_start_y = y2 := by
    intro x hx
    simp only [runEvents, List.foldl, stepEv]
    rw [handle_gesture_anchor_capture _ (by
      rw [(handle_imu_frame cfg x.1 x.2 [] y2 t2).1, hx]
      decide)]
    exact (handle_imu_frame cfg x.1 x.2 [] y2 t2).2.2.1
  rw [show ([.pose 0, .imu y1 t1, .pose 1, .pose 0, .imu y2 t2, .pose 1] : List Ev) =
      [.pose 0, .imu y1 t1, .pose 1, .pose 0] ++ [.imu y2 t2, .pose 1] from rfl,
    runEvents_append]
  apply key
  simp only [runEvents, List.foldl, stepEv]
  exact handle_gesture_cg _ 0

/-- Witness for C6: a concrete anchor capture, and the concrete double
activation scenario ending with the second sample as anchor. -/
theorem c6_anchor_capture_witness :
    (handle_gesture ⟨0, 42, 0, 7⟩ 1).gesture_start_y = 42 ∧
    (runEvents cfgGroup (⟨5, 1, 2, 3⟩, some bsG)
      [.pose 0, .imu 11 1, .pose 1, .pose 0, .imu 22 2, .pose 1]).1.gesture_start_y = 22 :=
  ⟨(c6_anchor_capture.1 ⟨0, 42, 0, 7⟩ (by decide)).1,
   c6_anchor_capture.2.2 cfgGroup ⟨5, 1, 2, 3⟩ (some bsG) 11 1 22 2⟩

/-- Claim C8 (confirmed): no lighting-interface failure is fatal.  Every
raise inside `adjust_hue`'s or `toggle_lights`'s `try` block is caught and
turned into a plain failure return (`False` resp. a bare return), never
propagated; and with a null bridge handle both operations return without any
lighting call. -/
theorem c8_errors_caught :
    (∀ (cfg : LightConfig) (bs : BridgeState) (o : List Bool) (d : Int)
        (s' : BridgeState) (tr : List Call),
      adjust_hue_try cfg bs o d = ⟨.raised, s', tr⟩ →
      adjust_hue cfg (some bs) o d = (false, some s', tr)) ∧
    (∀ (cfg : LightConfig) (o : List Bool) (d : Int),
      adjust_hue cfg none o d = (false, none, [])) ∧
    (∀ (cfg : LightConfig) (bs : BridgeState) (o : List Bool)
        (s' : BridgeState) (tr : List Call),
      toggle_lights_try cfg bs o = ⟨.raised, s', tr⟩ →
      toggle_lights cfg (some bs) o = (some s', tr)) ∧
    (∀ (cfg : LightConfig) (o : List Bool),
      toggle_lights cfg none o = (none, [])) := by
  refine ⟨?_, fun _ _ _ => rfl, ?_, fun _ _ => rfl⟩
  · intro cfg bs o d s' tr h
    simp [adjust_hue, h]
  · intro cfg bs o s' tr h
    simp [toggle_lights, h]

/-- Witness for C8: concrete runs whose first bridge call raises. -/
theorem c8_errors_caught_witness :
    adjust_hue cfgGroup (some bsG) [true] 5 = (false, some bsG, [.getGroups]) ∧
    toggle_lights cfgGroup (some bsG) [true] = (some bsG, [.getGroups]) :=
  ⟨c8_errors_caught.1 cfgGroup bsG [true] 5 bsG [.getGroups] (by decide),
   c8_errors_caught.2.2.1 cfgGroup bsG [true] bsG [.getGroups] (by decide)⟩


/-- Toggling a group's on-state never changes which group names resolve. -/
theorem findGroupId_setGroupOnAt_isSome (gs : List (Nat × GroupInfo)) (gid : Nat)
    (v : Bool) (n : String) :
    (findGroupId (setGroupOnAt gs gid v) n).isSome = (findGroupId gs n).isSome := by
  induction gs with
  | nil => rfl
  | cons p gs ih =>
    by_cases hp : p.1 = gid <;> by_cases hn : p.2.name = n <;>
      simp_all [findGroupId, setGroupOnAt, List.find?_cons]

/-- Claim C2 counterexample: in control mode, against a bridge with the
configured group present, the pose-event sequence `[active, active, active]`
performs three mutating toggle calls, not exactly one. -/
theorem c2_counterexample :
    ((runPoses false cfgGroup (some bsG) [1, 1, 1]).2.filter Call.isMut).length = 3 ∧
    ((runPoses false cfgGroup (some bsG) [1, 1, 1]).2.filter Call.isMut).length ≠ 1 := by
  exact ⟨by decide, by decide⟩

/-- Claim C2 (corrected): `hueBright.py` keeps no previous-pose state, so its
toggle is level-triggered per event, not edge-triggered: with the configured
group present, every pose event carrying the active label performs exactly one
toggle, hence n consecutive active events toggle n times. -/
theorem c2_level_triggered (poses : List Nat) : ∀ (bs : BridgeState),
    (findGroupId bs.groups cfgGroup.group_name).isSome = true →
    ((runPoses false cfgGroup (some bs) poses).2.filter Call.isMut).length =
      (poses.filter (fun p => p == 1)).length := by
  induction poses with
  | nil => intro bs _; rfl
  | cons p ps ih =>
    intro bs h
    by_cases hp : p = 1
    · subst hp
      obtain ⟨⟨gid, g⟩, hg⟩ := Option.isSome_iff_exists.mp h
      have hstep : hueBright_handle_gesture false cfgGroup (some bs) [] 1 =
          (some { bs with groups := setGroupOnAt bs.groups gid (!g.any_on) },
           [.getGroups, .setGroupOn gid (!g.any_on)]) := by
        rw [hueBright_handle_gesture, if_pos ⟨rfl, rfl⟩]
        exact toggle_lights_group_found cfgGroup bs gid g rfl hg
      have hpres : (findGroupId
          ({ bs with groups := setGroupOnAt bs.groups gid (!g.any_on) } : BridgeState).groups
          cfgGroup.group_name).isSome = true := by
        rw [show ({ bs with groups := setGroupOnAt bs.groups gid (!g.any_on) } : BridgeState).groups
            = setGroupOnAt bs.groups gid (!g.any_on) from rfl]
        rw [findGroupId_setGroupOnAt_isSome]
        exact h
      simp only [runPoses, hstep]
      simp only [List.filter_append, List.length_append, ih _ hpres]
      simp [Call.isMut]
      omega
    · simp only [runPoses, hueBright_handle_gesture]
      rw [if_neg (by simp [hp])]
      have : (p == 1) = false := by simpa using hp
      simp only [List.filter, this]
      exact ih bs h

/-- Witness for C2 (corrected) on the concrete sequence `[1, 0, 1]`. -/
theorem c2_level_triggered_witness :
    ((runPoses false cfgGroup (some bsG) [1, 0, 1]).2.filter Call.isMut).length =
      (([1, 0, 1] : List Nat).filter (fun p => p == 1)).length :=
  c2_level_triggered [1, 0, 1] bsG (by decide)

/-- Claim C1 counterexample: at `relative = 200` the code's delta
(`int((200/150)*500)`, truncation toward zero) is 666 while rounding to
nearest gives 667, so the delta passed to the lighting call is not
`round((relative/motionThreshold)*hueStep)`. -/
theorem c1_counterexample :
    hue_change_of 200 = 666 ∧
    round ((200 : ℚ) / MOTION_THRESHOLD * HUE_STEP) = 667 ∧
    hue_change_of 200 ≠ round ((200 : ℚ) / MOTION_THRESHOLD * HUE_STEP) := by
  have h1 : hue_change_of 200 = 666 := by
    rw [hue_change_of, pyInt, MOTION_THRESHOLD, HUE_STEP, if_pos (by norm_num)]
    rw [Int.floor_eq_iff]
    norm_num
  have h2 : round ((200 : ℚ) / MOTION_THRESHOLD * HUE_STEP) = 667 := by
    rw [round_eq, MOTION_THRESHOLD, HUE_STEP, Int.floor_eq_iff]
    norm_num
  exact ⟨h1, h2, by rw [h1, h2]; decide⟩

/-- Claim C1 (corrected): on every qualifying gesture-active motion sample
(past the rate-limit and deadzone gates, `|relative| > MOTION_THRESHOLD`,
group target found), the hue delta entering the lighting call is
`int((relative/motionThreshold)*hueStep)` -- Python `int`, truncation toward
zero -- rather than rounding to nearest. -/
theorem c1_delta_truncation (s : ControllerState) (bs : BridgeState)
    (a t : ℚ) (gid : Nat) (g : GroupInfo)
    (h1 : s.current_gesture = 1)
    (h2 : ¬(t - s.last_hue_update < UPDATE_INTERVAL))
    (h3 : |a - s.gesture_start_y| > MOTION_THRESHOLD)
    (hg : findGroupId bs.groups cfgGroup.group_name = some (gid, g)) :
    (handle_imu cfgGroup s (some bs) [] a t).applied = true ∧
    (handle_imu cfgGroup s (some bs) [] a t).calls =
      [.getGroups, .setGroupHue gid (new_hue_of (g.action_hue.getD 0)
        (pyInt ((a - s.gesture_start_y) / MOTION_THRESHOLD * HUE_STEP)))] := by
  rw [handle_imu_qualifying cfgGroup s (some bs) [] a t h1 h2 h3]
  rw [adjust_hue_group_found cfgGroup bs _ gid g rfl hg]
  simp [hue_change_of]

/-- Witness for C1 (corrected) at a concrete qualifying sample. -/
theorem c1_delta_truncation_witness :
    (handle_imu cfgGroup ⟨1, 0, 0, 0⟩ (some bsG) [] 200 1).applied = true ∧
    (handle_imu cfgGroup ⟨1, 0, 0, 0⟩ (some bsG) [] 200 1).calls =
      [.getGroups, .setGroupHue 1 (new_hue_of ((some (1000 : Int)).getD 0)
        (pyInt ((200 - (⟨1, 0, 0, 0⟩ : ControllerState).gesture_start_y) / MOTION_THRESHOLD * HUE_STEP)))] :=
  c1_delta_truncation ⟨1, 0, 0, 0⟩ bsG 200 1 1 ⟨"Living room", some 1000, false⟩ rfl
    (by norm_num [UPDATE_INTERVAL]) (by norm_num [MOTION_THRESHOLD]) (by decide)


/-- With no injected failures, the per-light loop updates exactly the named
lights and attempts one assignment per name. -/
theorem setLightsLoop_noFail (upd : Light → Light) (mk : String → Call)
    (hname : ∀ L, (upd L).name = L.name) (hidem : ∀ L, upd (upd L) = upd L) :
    ∀ (names : List String) (ls : List Light),
    setLightsLoop upd mk ls [] names =
      ⟨.ok (), ls.map (fun L => if L.name ∈ names then upd L else L), names.map mk⟩ := by
  intro names
  induction names with
  | nil => intro ls; simp [setLightsLoop]
  | cons n rest ih =>
    intro ls
    simp only [setLightsLoop, List.headD, List.tail]
    rw [ih]
    have hmap : (ls.map (fun L => if L.name = n then upd L else L)).map
        (fun L => if L.name ∈ rest then upd L else L) =
        ls.map (fun L => if L.name ∈ n :: rest then upd L else L) := by
      rw [List.map_map]
      apply List.map_congr_left
      intro L _
      by_cases hn : L.name = n <;> by_cases hr : L.name ∈ rest <;>
        simp_all [hname, hidem, List.mem_cons]
    simp [hmap]

/-- Individual-lights mode, some configured light present, no failures:
`adjust_hue` reads the first available light's hue and writes the value
computed from it to every available light. -/
theorem adjust_hue_lights_noFail (cfg : LightConfig) (bs : BridgeState) (d : Int)
    (a0 : String) (rest : List String) (L0 : Light)
    (hu : cfg.use_group = false)
    (hav : cfg.light_names.filter (fun n => (findLight bs.lights n).isSome) = a0 :: rest)
    (hL0 : findLight bs.lights a0 = some L0) :
    adjust_hue cfg (some bs) [] d =
      (true,
       some { bs with lights := bs.lights.map (fun L =>
         if L.name ∈ a0 :: rest then { L with hue := new_hue_of L0.hue d } else L) },
       .getLights :: .readLightHue a0 ::
         (a0 :: rest).map (fun n => .setLightHue n (new_hue_of L0.hue d))) := by
  simp only [adjust_hue, adjust_hue_try, adjust_hue_lights, hu, hav, hL0,
    Option.map_some', Option.getD_some, List.tail_nil]
  rw [setLightsLoop_noFail (fun L => { L with hue := new_hue_of L0.hue d })
    (fun n => Call.setLightHue n (new_hue_of L0.hue d)) (fun L => rfl) (fun L => rfl)]
  simp

/-- Individual-lights mode, some configured light present, no failures:
`toggle_lights` reads the first available light's on-state and writes its
negation to every available light. -/
theorem toggle_lights_lights_noFail (cfg : LightConfig) (bs : BridgeState)
    (a0 : String) (rest : List String) (L0 : Light)
    (hu : cfg.use_group = false)
    (hav : cfg.light_names.filter (fun n => (findLight bs.lights n).isSome) = a0 :: rest)
    (hL0 : findLight bs.lights a0 = some L0) :
    toggle_lights cfg (some bs) [] =
      (some { bs with lights := bs.lights.map (fun L =>
         if L.name ∈ a0 :: rest then { L with isOn := !L0.isOn } else L) },
       .getLights :: .readLightOn a0 ::
         (a0 :: rest).map (fun n => .setLightOn n (!L0.isOn))) := by
  simp only [toggle_lights, toggle_lights_try, toggle_lights_lights, hu, hav, hL0,
    Option.map_some', Option.getD_some, List.tail_nil]
  rw [setLightsLoop_noFail (fun L => { L with isOn := !L0.isOn })
    (fun n => Call.setLightOn n (!L0.isOn)) (fun L => rfl) (fun L => rfl)]
  simp

/-- Individual-lights mode, no configured light present: `adjust_hue` returns
`False`, touches nothing and performs no mutating call. -/
theorem adjust_hue_lights_notfound (cfg : LightConfig) (bs : BridgeState)
    (o : List Bool) (d : Int)
    (hu : cfg.use_group = false)
    (hav : cfg.light_names.filter (fun n => (findLight bs.lights n).isSome) = []) :
    adjust_hue cfg (some bs) o d = (false, some bs, [.getLights]) := by
  cases o with
  | nil => simp [adjust_hue, adjust_hue_try, adjust_hue_lights, hu, hav]
  | cons b o =>
    cases b <;> simp [adjust_hue, adjust_hue_try, adjust_hue_lights, hu, hav]

/-- Claim C9 (confirmed): in individual-lights mode both operations read the
current state (hue resp. on/off) only from the first configured light present
in the bridge's light list and apply the value computed from that first
light's state uniformly to every present configured light, overwriting lights
whose state differs. -/
theorem c9_first_light_uniform (cfg : LightConfig) (bs : BridgeState) (d : Int)
    (a0 : String) (rest : List String) (L0 : Light)
    (hu : cfg.use_group = false)
    (hav : cfg.light_names.filter (fun n => (findLight bs.lights n).isSome) = a0 :: rest)
    (hL0 : findLight bs.lights a0 = some L0) :
    adjust_hue cfg (some bs) [] d =
      (true,
       some { bs with lights := bs.lights.map (fun L =>
         if L.name ∈ a0 :: rest then { L with hue := new_hue_of L0.hue d } else L) },
       .getLights :: .readLightHue a0 ::
         (a0 :: rest).map (fun n => .setLightHue n (new_hue_of L0.hue d))) ∧
    toggle_lights cfg (some bs) [] =
      (some { bs with lights := bs.lights.map (fun L =>
         if L.name ∈ a0 :: rest then { L with isOn := !L0.isOn } else L) },
       .getLights :: .readLightOn a0 ::
         (a0 :: rest).map (fun n => .setLightOn n (!L0.isOn))) :=
  ⟨adjust_hue_lights_noFail cfg bs d a0 rest L0 hu hav hL0,
   toggle_lights_lights_noFail cfg bs a0 rest L0 hu hav hL0⟩

/-- Witness for C9 on a concrete bridge whose two lights are in different
states; both end up matching the value computed from the first. -/
theorem c9_first_light_uniform_witness :
    adjust_hue cfgLights (some bsL) [] 500 =
      (true, some ⟨[], [⟨"A", 600, false⟩, ⟨"B", 600, true⟩]⟩,
       [.getLights, .readLightHue "A", .setLightHue "A" 600, .setLightHue "B" 600]) ∧
    toggle_lights cfgLights (some bsL) [] =
      (some ⟨[], [⟨"A", 100, true⟩, ⟨"B", 200, true⟩]⟩,
       [.getLights, .readLightOn "A", .setLightOn "A" true, .setLightOn "B" true]) := by
  have h := c9_first_light_uniform cfgLights bsL 500 "A" ["B"] ⟨"A", 100, false⟩ rfl
    (by decide) (by decide)
  exact ⟨h.1.trans (by decide), h.2.trans (by decide)⟩

/-- Claim C7 counterexample: in individual-lights mode with two configured
lights, if the write to the second light raises, the update fails (returns
`False`) yet the first light's hue mutation has already taken effect, so a
failed hue update is not free of mutating lighting calls. -/
theorem c7_counterexample :
    adjust_hue cfgLights (some bsL) [false, false, false, true] 500 =
      (false, some ⟨[], [⟨"A", 600, false⟩, ⟨"B", 200, true⟩]⟩,
       [.getLights, .readLightHue "A", .setLightHue "A" 600, .setLightHue "B" 600]) ∧
    (⟨[], [⟨"A", 600, false⟩, ⟨"B", 200, true⟩]⟩ : BridgeState) ≠ bsL :=
  ⟨by decide, by decide⟩

/-- Claim C7 (corrected): the rate-limiter timestamp is updated exactly on
applied updates and left unchanged on every failure, enabling immediate retry;
and in the null-bridge and target-not-found cases zero mutating calls take
effect.  (A raise mid-update can leave earlier per-light mutations in place,
per the counterexample.) -/
theorem c7_failure_retry :
    (∀ (cfg : LightConfig) (s : ControllerState) (bro : Option BridgeState)
        (o : List Bool) (a t : ℚ),
      ((handle_imu cfg s bro o a t).applied = false →
        (handle_imu cfg s bro o a t).st.last_hue_update = s.last_hue_update) ∧
      ((handle_imu cfg s bro o a t).applied = true →
        (handle_imu cfg s bro o a t).st.last_hue_update = t)) ∧
    (∀ (cfg : LightConfig) (bs : BridgeState) (o : List Bool) (d : Int),
      cfg.use_group = true → findGroupId bs.groups cfg.group_name = none →
      adjust_hue cfg (some bs) o d = (false, some bs, [.getGroups])) ∧
    (∀ (cfg : LightConfig) (bs : BridgeState) (o : List Bool) (d : Int),
      cfg.use_group = false →
      cfg.light_names.filter (fun n => (findLight bs.lights n).isSome) = [] →
      adjust_hue cfg (some bs) o d = (false, some bs, [.getLights])) ∧
    (∀ (cfg : LightConfig) (o : List Bool) (d : Int),
      adjust_hue cfg none o d = (false, none, [])) := by
  refine ⟨?_, adjust_hue_group_notfound, adjust_hue_lights_notfound, fun _ _ _ => rfl⟩
  intro cfg s bro o a t
  obtain ⟨h1, h2, h3, h4, h5⟩ := handle_imu_frame cfg s bro o a t
  exact ⟨h4, h5⟩

/-- Witness for C7 (corrected): a failed (inactive-gesture) cycle leaves the
timestamp unchanged, and a not-found target yields a clean failure. -/
theorem c7_failure_retry_witness :
    (handle_imu cfgGroup ⟨0, 5, 0, 0⟩ (some bsG) [] 7 1).st.last_hue_update = 0 ∧
    adjust_hue cfgGroup (some ⟨[], []⟩) [] 5 = (false, some ⟨[], []⟩, [.getGroups]) := by
  constructor
  · exact (c7_failure_retry.1 cfgGroup ⟨0, 5, 0, 0⟩ (some bsG) [] 7 1).1
      (by rw [handle_imu_inactive cfgGroup ⟨0, 5, 0, 0⟩ (some bsG) [] 7 1 (by decide)])
  · exact c7_failure_retry.2.1 cfgGroup ⟨[], []⟩ [] 5 rfl (by decide)

/-- Witness for C4 at a concrete sample with `DEADZONE < |relative| = 100 <=
MOTION_THRESHOLD`. -/
theorem c4_two_tier_gate_witness :
    (handle_imu cfgGroup ⟨1, 0, 0, 0⟩ (some bsG) [] 100 1).calls = [] ∧
    (handle_imu cfgGroup ⟨1, 0, 0, 0⟩ (some bsG) [] 100 1).applied = false :=
  (c4_two_tier_gate cfgGroup ⟨1, 0, 0, 0⟩ (some bsG) [] 100 1).2.1
    ⟨by norm_num [DEADZONE], by norm_num [MOTION_THRESHOLD]⟩

/-- Witness for C10 at a concrete inactive-gesture sample. -/
theorem c10_no_call_frame_witness :
    (handle_imu cfgGroup ⟨0, 5, 0, 0⟩ (some bsG) [] 7 1).st.current_gesture = 0 ∧
    (handle_imu cfgGroup ⟨0, 5, 0, 0⟩ (some bsG) [] 7 1).st.gesture_start_y = 0 ∧
    (handle_imu cfgGroup ⟨0, 5, 0, 0⟩ (some bsG) [] 7 1).st.last_hue_update = 0 ∧
    (handle_imu cfgGroup ⟨0, 5, 0, 0⟩ (some bsG) [] 7 1).st.imu_y_value = 7 :=
  c10_no_call_frame cfgGroup ⟨0, 5, 0, 0⟩ (some bsG) [] 7 1
    (by rw [handle_imu_inactive cfgGroup ⟨0, 5, 0, 0⟩ (some bsG) [] 7 1 (by decide)])

/-- Witness for C3: a concrete applied update at time 1 followed by a sample
at time 6/5, which is silently dropped. -/
theorem c3_rate_limiting_witness :
    (handle_imu cfgGroup (handle_imu cfgGroup ⟨1, 0, 0, 0⟩ (some bsG) [] 200 1).st
      (handle_imu cfgGroup ⟨1, 0, 0, 0⟩ (some bsG) [] 200 1).bridge [] 0 (6/5)).applied = false ∧
    (handle_imu cfgGroup (handle_imu cfgGroup ⟨1, 0, 0, 0⟩ (some bsG) [] 200 1).st
      (handle_imu cfgGroup ⟨1, 0, 0, 0⟩ (some bsG) [] 200 1).bridge [] 0 (6/5)).calls = [] := by
  have happ : (handle_imu cfgGroup ⟨1, 0, 0, 0⟩ (some bsG) [] 200 1).applied = true := by
    rw [handle_imu_qualifying cfgGroup ⟨1, 0, 0, 0⟩ (some bsG) [] 200 1 rfl
      (by norm_num [UPDATE_INTERVAL]) (by norm_num [MOTION_THRESHOLD])]
    rw [adjust_hue_group_found cfgGroup bsG _ 1 ⟨"Living room", some 1000, false⟩ rfl (by decide)]
    simp
  exact (c3_rate_limiting cfgGroup ⟨1, 0, 0, 0⟩ (some bsG) [] 200 1).2 [] 0 (6/5) happ
    (by norm_num [UPDATE_INTERVAL])

end EmgIot
